import Mathlib

/-! SumatraPDF, `WindowInfo.h`: a shallow embedding.

The header `src/WindowInfo.h` declares the per-window state of the viewer
(`class WindowInfo`), two enumerations (`MouseAction`, `PresentationMode`),
a handful of inline member functions and the `LinkHandler` class.

Conventions of the embedding:

* window handles, opaque pointers and timer ids are natural numbers
  (`0` is `NULL`);
* a pointer whose pointee the inline code of the header reads (`ctrl`,
  `loadedFilePath`) is an `Option` of the pointee (`none` is `NULL`);
* `int` and `long` are `Int`; `float` and `double` are carried as raw bit
  patterns, since no inline code computes with them;
* member functions that the header declares without a body are recorded as
  entries of a call trace.
-/

namespace WindowInfoModel

/-! ## Plain data -/

/-- A platform handle (`HWND`, `HMENU`, `HANDLE`, `UINT_PTR`): `0` is `NULL`. -/
abbrev Handle := Nat

/-- A pointer to an object the header only forward-declares: `0` is `NULL`. -/
abbrev Ptr := Nat

/-- Raw bits of a `float` or `double`; the header never computes with them. -/
abbrev FloatBits := Nat

/-- The enumeration `EngineType` is declared outside this header; values are
carried as the underlying integer. -/
abbrev EngineType := Int

/-- The enumeration `DisplayMode` is declared outside this header; values are
carried as the underlying integer. -/
abbrev DisplayMode := Int

/-- Describes actions which can be performed by mouse (`enum MouseAction`). -/
inductive MouseAction where
  | MA_IDLE
  | MA_DRAGGING
  | MA_DRAGGING_RIGHT
  | MA_SELECTING
  | MA_SCROLLING
  | MA_SELECTING_TEXT
  deriving DecidableEq

/-- The integer each `MouseAction` enumerator stands for: `MA_IDLE = 0`, the
others counting up from it in declaration order. -/
def MouseAction.toNat : MouseAction → Nat
  | .MA_IDLE => 0
  | .MA_DRAGGING => 1
  | .MA_DRAGGING_RIGHT => 2
  | .MA_SELECTING => 3
  | .MA_SCROLLING => 4
  | .MA_SELECTING_TEXT => 5

/-- The six enumerators of `MouseAction`, in declaration order. -/
def MouseAction.all : List MouseAction :=
  [.MA_IDLE, .MA_DRAGGING, .MA_DRAGGING_RIGHT, .MA_SELECTING, .MA_SCROLLING,
   .MA_SELECTING_TEXT]

/-- The presentation modes (`enum PresentationMode`). -/
inductive PresentationMode where
  | PM_DISABLED
  | PM_ENABLED
  | PM_BLACK_SCREEN
  | PM_WHITE_SCREEN
  deriving DecidableEq

/-- The integer each `PresentationMode` enumerator stands for. -/
def PresentationMode.toNat : PresentationMode → Nat
  | .PM_DISABLED => 0
  | .PM_ENABLED => 1
  | .PM_BLACK_SCREEN => 2
  | .PM_WHITE_SCREEN => 3

/-- An integer point (`PointI`). -/
structure PointI where
  x : Int
  y : Int
  deriving DecidableEq

/-- An integer rectangle (`RectI`). -/
structure RectI where
  x : Int
  y : Int
  dx : Int
  dy : Int
  deriving DecidableEq

/-- A point with 16-bit coordinates (`POINTS`). -/
structure POINTS where
  x : Int
  y : Int
  deriving DecidableEq

/-- State of `WM_GESTURE` handling (`struct TouchState`). -/
structure TouchState where
  panStarted : Bool
  panPos : POINTS
  panScrollOrigX : Int
  startArg : FloatBits
  deriving DecidableEq

/-- Position, target and infotip of a "hyperlink" (`struct StaticLinkInfo`). -/
structure StaticLinkInfo where
  rect : RectI
  target : Option String
  infotip : Option String
  deriving DecidableEq

/-- The anonymous struct behind `WindowInfo::fwdSearchMark`. -/
structure FwdSearchMark where
  show_ : Bool
  rects : List RectI
  page : Int
  hideStep : Int
  deriving DecidableEq

/-! ## Controllers

`Controller`, `FixedPageUIController`, `ChmUIController` and
`EbookUIController` come from `Controller.h`.  The header under study uses
exactly four things of them: the three down-cast accessors of a controller and
the `engineType` member of a fixed-page controller.  A controller is therefore
the triple of what its accessors return, with no assumption on how the three
relate. -/

/-- A fixed-page controller, as far as this header reads it. -/
structure FixedPageUIController where
  engineType : EngineType
  deriving DecidableEq

/-- A CHM controller; the header only tests a pointer to one against `NULL`. -/
structure ChmUIController where
  id : Nat
  deriving DecidableEq

/-- An ebook controller; the header only tests a pointer to one against `NULL`. -/
structure EbookUIController where
  id : Nat
  deriving DecidableEq

/-- What `ctrl->AsFixed()`, `ctrl->AsChm()` and `ctrl->AsEbook()` return for
a controller object (`none` is `NULL`). -/
structure Controller where
  AsFixed : Option FixedPageUIController
  AsChm : Option ChmUIController
  AsEbook : Option EbookUIController
  deriving DecidableEq

/-! ## The window object -/

/-- The data members of `class WindowInfo`, in declaration order. -/
structure WindowInfo where
  loadedFilePath : Option String
  ctrl : Option Controller
  hwndFrame : Handle
  hwndCanvas : Handle
  hwndToolbar : Handle
  hwndReBar : Handle
  hwndFindText : Handle
  hwndFindBox : Handle
  hwndFindBg : Handle
  hwndPageText : Handle
  hwndPageBox : Handle
  hwndPageBg : Handle
  hwndPageTotal : Handle
  hwndTocBox : Handle
  hwndTocTree : Handle
  tocLoaded : Bool
  tocVisible : Bool
  tocKeepSelection : Bool
  tocState : List Int
  tocRoot : Ptr
  hwndFavBox : Handle
  hwndFavTree : Handle
  expandedFavorites : List Ptr
  hwndSidebarSplitter : Handle
  hwndFavSplitter : Handle
  hwndTabBar : Handle
  tabsVisible : Bool
  tabSelectionHistory : Option (List Ptr)
  hwndInfotip : Handle
  infotipVisible : Bool
  menu : Handle
  isMenuHidden : Bool
  dpi : Int
  uiDPIFactor : FloatBits
  buffer : Ptr
  mouseAction : MouseAction
  dragStartPending : Bool
  dragPrevPos : PointI
  dragStart : PointI
  xScrollSpeed : Int
  yScrollSpeed : Int
  showSelection : Bool
  selectionRect : RectI
  selectionOnPage : Ptr
  staticLinks : List StaticLinkInfo
  watcher : Ptr
  isFullScreen : Bool
  presentation : PresentationMode
  tocBeforeFullScreen : Bool
  windowStateBeforePresentation : Int
  nonFullScreenWindowStyle : Int
  nonFullScreenFrameRect : RectI
  prevZoomVirtual : FloatBits
  prevDisplayMode : DisplayMode
  canvasRc : RectI
  currPageNo : Int
  wheelAccumDelta : Int
  delayedRepaintTimer : Handle
  notifications : Ptr
  printThread : Handle
  printCanceled : Bool
  findThread : Handle
  findCanceled : Bool
  linkHandler : Ptr
  linkOnLastButtonDown : Ptr
  url : Option String
  pdfsync : Ptr
  fwdSearchMark : FwdSearchMark
  stressTest : Ptr
  touchState : TouchState
  uia_provider : Ptr
  deriving DecidableEq

/-- Modelled from the spec: the view configuration that the presentation
snapshot of the spec is taken of ("window style, frame geometry, zoom level,
display mode").  These live values are not data members of `WindowInfo`: the
style and rectangle belong to the frame window behind `hwndFrame`, the zoom
and display mode to the controller behind `ctrl`, and no accessor for them is
declared in the header. -/
structure LiveView where
  windowStyle : Int
  frameRect : RectI
  zoomVirtual : FloatBits
  displayMode : DisplayMode
  deriving DecidableEq

/-- A request issued to a member function that the header declares without a
body.  `RedrawAll update self` is the call `RedrawAll(update)`, with the data
members the callee sees at the moment of the call. -/
inductive Call where
  | RedrawAll (update : Bool) (self : WindowInfo)

/-- A window together with its surroundings: the data members of the object, the
live view configuration outside the object, and the requests issued so far
(oldest first). -/
structure Session where
  win : WindowInfo
  view : LiveView
  calls : List Call

/-! ## Inline member functions of `WindowInfo` -/

/-- The inline member `bool IsAboutWindow() const { return !loadedFilePath; }` -/
def IsAboutWindow (w : WindowInfo) : Bool :=
  w.loadedFilePath.isNone

/-- The inline member `bool IsDocLoaded() const { return this->ctrl != NULL; }` -/
def IsDocLoaded (w : WindowInfo) : Bool :=
  w.ctrl.isSome

/-- The inline member `bool IsFixedDocLoaded() const { return ctrl && ctrl->AsFixed(); }` -/
def IsFixedDocLoaded (w : WindowInfo) : Bool :=
  match w.ctrl with
  | none => false
  | some c => c.AsFixed.isSome

/-- The inline member `bool IsChm() const { return ctrl && ctrl->AsChm(); }` -/
def IsChm (w : WindowInfo) : Bool :=
  match w.ctrl with
  | none => false
  | some c => c.AsChm.isSome

/-- The inline member `bool IsEbookLoaded() const { return ctrl && ctrl->AsEbook(); }` -/
def IsEbookLoaded (w : WindowInfo) : Bool :=
  match w.ctrl with
  | none => false
  | some c => c.AsEbook.isSome

/-- The inline member `FixedPageUIController *AsFixed() { return ctrl ? ctrl->AsFixed() : NULL; }` -/
def AsFixed (w : WindowInfo) : Option FixedPageUIController :=
  match w.ctrl with
  | some c => c.AsFixed
  | none => none

/-- The inline member `ChmUIController *AsChm() { return ctrl ? ctrl->AsChm() : NULL; }` -/
def AsChm (w : WindowInfo) : Option ChmUIController :=
  match w.ctrl with
  | some c => c.AsChm
  | none => none

/-- The inline member `EbookUIController *AsEbook() { return ctrl ? ctrl->AsEbook() : NULL; }` -/
def AsEbook (w : WindowInfo) : Option EbookUIController :=
  match w.ctrl with
  | some c => c.AsEbook
  | none => none

/-- The inline member `EngineType GetEngineType() const
{ return ctrl && ctrl->AsFixed() ? ctrl->AsFixed()->engineType : Engine_None; }`.
The enumerator `Engine_None` is declared outside the header and is passed in. -/
def GetEngineType (Engine_None : EngineType) (w : WindowInfo) : EngineType :=
  match w.ctrl with
  | none => Engine_None
  | some c =>
    match c.AsFixed with
    | some f => f.engineType
    | none => Engine_None

/-- The inline member `bool IsCbx() const { return GetEngineType() == Engine_ComicBook; }` -/
def IsCbx (Engine_None Engine_ComicBook : EngineType) (w : WindowInfo) : Bool :=
  GetEngineType Engine_None w == Engine_ComicBook

/-- The inline member `bool IsNotPdf() const { return IsDocLoaded() && GetEngineType() != Engine_PDF; }` -/
def IsNotPdf (Engine_None Engine_PDF : EngineType) (w : WindowInfo) : Bool :=
  IsDocLoaded w && GetEngineType Engine_None w != Engine_PDF

/-- Modelled from the spec: `void RedrawAll(bool update=false);` has no body
in the header.  The spec has it as a full-repaint request handed to the
rendering collaborator, which "never" hands anything back: the request is
recorded and neither the data members nor the live view change. -/
def RedrawAll (update : Bool) (s : Session) : Session :=
  { s with calls := s.calls ++ [Call.RedrawAll update s.win] }

/-- The inline member
`void ChangePresentationMode(PresentationMode mode) { presentation = mode; RedrawAll(); }`
where `RedrawAll()` takes its default argument `update = false`. -/
def ChangePresentationMode (mode : PresentationMode) (s : Session) : Session :=
  let s1 : Session := { s with win := { s.win with presentation := mode } }
  RedrawAll false s1

/-- A run of `ChangePresentationMode` calls, first mode first. -/
def ChangePresentationModes (modes : List PresentationMode) (s : Session) : Session :=
  modes.foldl (fun acc m => ChangePresentationMode m acc) s

/-! ## The interaction state machine

The header holds the state of the machine (`mouseAction`, `dragStart`,
`dragPrevPos`); the code that moves it is in other translation units. -/

/-- Modelled from the spec: the error kinds of section 7, which the header does
not declare. -/
inductive ErrorKind where
  | AlreadyActive
  | NotFound
  | OpenFailed
  | InvalidState
  deriving DecidableEq

/-- What an operation of the interaction state machine hands back: the error
it reports, if any, and the window afterwards. -/
structure Outcome where
  error : Option ErrorKind
  win : WindowInfo
  deriving DecidableEq

/-- Modelled from the spec: the transition `Begin(mode, originPosition)` of the
InteractionStateMachine, whose code is not in the header.  Spec 4.1: it
"transitions from Idle" to the requested mode and "fails (no-op, reports
AlreadyActive) if not currently Idle"; the starting cursor position is
recorded "atomically with the transition", as origin and as previous
position. -/
def Begin (mode : MouseAction) (originPosition : PointI) (w : WindowInfo) : Outcome :=
  if w.mouseAction = MouseAction.MA_IDLE then
    { error := none
      win := { w with mouseAction := mode, dragStart := originPosition,
                      dragPrevPos := originPosition } }
  else
    { error := some ErrorKind.AlreadyActive, win := w }

/-- Modelled from the spec: the transition `End()` of the
InteractionStateMachine, whose code is not in the header.  Spec 4.1: it
"returns to Idle unconditionally and is idempotent". -/
def End (w : WindowInfo) : Outcome :=
  { error := none, win := { w with mouseAction := MouseAction.MA_IDLE } }

/-- One call on the interaction state machine. -/
inductive InteractionOp where
  | callBegin (mode : MouseAction) (originPosition : PointI)
  | callEnd
  deriving DecidableEq

/-- The window after one call, whether or not the call reported an error. -/
def InteractionOp.apply (w : WindowInfo) : InteractionOp → WindowInfo
  | .callBegin mode originPosition => (Begin mode originPosition w).win
  | .callEnd => (End w).win

/-- The window after a sequence of `Begin`/`End` calls, first call first. -/
def runInteraction (ops : List InteractionOp) (w : WindowInfo) : WindowInfo :=
  ops.foldl InteractionOp.apply w

/-! ## The link handler

`class LinkHandler` declares `ScrollTo`, `FindTocItem` and `GotoNamedDest`
without bodies, and `DocTocItem` is declared in another header. -/

/-- A `PageDestination *` that is not `NULL`, identified by its address. -/
abbrev PageDestination := Nat

/-- Modelled from the spec: a table-of-contents entry, whose declaration
(`DocTocItem`) is not in the header.  Spec section 3: "name, children
(ordered), associated destination"; by the glossary an entry is "optionally
linked to a destination", so the destination of an entry may be missing
(`none`, a `NULL` pointer). -/
inductive TocNode where
  | mk (name : String) (dest : Option PageDestination) (children : List TocNode)

/-- The name of a TOC entry. -/
def TocNode.name : TocNode → String
  | .mk n _ _ => n

/-- The destination of a TOC entry, `none` when the entry has none. -/
def TocNode.dest : TocNode → Option PageDestination
  | .mk _ d _ => d

/-- The children of a TOC entry, in order. -/
def TocNode.children : TocNode → List TocNode
  | .mk _ _ cs => cs

/-- The characters of a string, each sent through the case mapping `lower`. -/
def lowered (lower : Char → Char) (s : String) : List Char :=
  s.toList.map lower

/-- Whether `needle` occurs in `hay` as a run of consecutive characters, which
includes occurring at its start. -/
def occursIn (needle : List Char) : List Char → Bool
  | [] => needle.isEmpty
  | c :: cs => needle.isPrefixOf (c :: cs) || occursIn needle cs

/-- Modelled from the spec: the comparison of one TOC entry name with the
wanted name, whose code is not in the header.  Spec 4.5: the exact pass
compares "node names case-sensitively"; the partial pass allows "a
case-insensitive prefix/substring match".  The case mapping of wide characters
is declared nowhere in the header and is passed in as `lower`: two characters
are the same regardless of case when `lower` sends them to the same
character. -/
def MatchTocName (lower : Char → Char) (partially : Bool) (title name : String) : Bool :=
  if partially then occursIn (lowered lower name) (lowered lower title)
  else decide (title = name)

mutual
/-- Modelled from the spec: the traversal behind `LinkHandler::FindTocItem`,
which the header declares without a body.  Spec 4.5: a traversal of the TOC
tree, "depth-first, children before siblings, first match wins"; it is
stateless and leaves the tree as it is.  The result is the entry at which the
traversal stops, `none` when no entry matches. -/
def FindTocEntry (lower : Char → Char) (item : TocNode) (name : String) (partially : Bool) :
    Option TocNode :=
  match item with
  | .mk title dest children =>
    if MatchTocName lower partially title name then some (TocNode.mk title dest children)
    else FindTocEntryIn lower children name partially
/-- The traversal over a run of sibling entries, first sibling first. -/
def FindTocEntryIn (lower : Char → Char) (items : List TocNode) (name : String)
    (partially : Bool) : Option TocNode :=
  match items with
  | [] => none
  | item :: rest =>
    match FindTocEntry lower item name partially with
    | some found => some found
    | none => FindTocEntryIn lower rest name partially
end

mutual
/-- The entries of a TOC tree in depth-first order: an entry, then the
entries below it, then its later siblings. -/
def TocNode.preorder : TocNode → List TocNode
  | .mk title dest children => TocNode.mk title dest children :: preorderIn children
/-- The entries of a run of sibling trees in depth-first order. -/
def preorderIn : List TocNode → List TocNode
  | [] => []
  | item :: rest => item.preorder ++ preorderIn rest
end

/-- A window with no document: every handle and pointer `NULL`, every number
zero, the interaction idle and presentation disabled. -/
def blankWindow : WindowInfo where
  loadedFilePath := none
  ctrl := none
  hwndFrame := 0
  hwndCanvas := 0
  hwndToolbar := 0
  hwndReBar := 0
  hwndFindText := 0
  hwndFindBox := 0
  hwndFindBg := 0
  hwndPageText := 0
  hwndPageBox := 0
  hwndPageBg := 0
  hwndPageTotal := 0
  hwndTocBox := 0
  hwndTocTree := 0
  tocLoaded := false
  tocVisible := false
  tocKeepSelection := false
  tocState := []
  tocRoot := 0
  hwndFavBox := 0
  hwndFavTree := 0
  expandedFavorites := []
  hwndSidebarSplitter := 0
  hwndFavSplitter := 0
  hwndTabBar := 0
  tabsVisible := false
  tabSelectionHistory := none
  hwndInfotip := 0
  infotipVisible := false
  menu := 0
  isMenuHidden := false
  dpi := 0
  uiDPIFactor := 0
  buffer := 0
  mouseAction := MouseAction.MA_IDLE
  dragStartPending := false
  dragPrevPos := ⟨0, 0⟩
  dragStart := ⟨0, 0⟩
  xScrollSpeed := 0
  yScrollSpeed := 0
  showSelection := false
  selectionRect := ⟨0, 0, 0, 0⟩
  selectionOnPage := 0
  staticLinks := []
  watcher := 0
  isFullScreen := false
  presentation := PresentationMode.PM_DISABLED
  tocBeforeFullScreen := false
  windowStateBeforePresentation := 0
  nonFullScreenWindowStyle := 0
  nonFullScreenFrameRect := ⟨0, 0, 0, 0⟩
  prevZoomVirtual := 0
  prevDisplayMode := 0
  canvasRc := ⟨0, 0, 0, 0⟩
  currPageNo := 0
  wheelAccumDelta := 0
  delayedRepaintTimer := 0
  notifications := 0
  printThread := 0
  printCanceled := false
  findThread := 0
  findCanceled := false
  linkHandler := 0
  linkOnLastButtonDown := 0
  url := none
  pdfsync := 0
  fwdSearchMark := ⟨false, [], 0, 0⟩
  stressTest := 0
  touchState := ⟨false, ⟨0, 0⟩, 0, 0⟩
  uia_provider := 0

/-- A window showing a fixed-page document of engine type `5`, in the middle
of a drag, with presentation disabled and stale snapshot members. -/
def draggingWindow : WindowInfo :=
  { blankWindow with
    loadedFilePath := some "a.pdf"
    ctrl := some ⟨some ⟨5⟩, none, none⟩
    hwndFrame := 100
    hwndCanvas := 101
    mouseAction := MouseAction.MA_DRAGGING
    dragStart := ⟨10, 20⟩
    dragPrevPos := ⟨12, 24⟩ }

/-- A frame window of style `13`, placed at `(30, 40)` with size `800 x 600`,
showing the document at zoom bits `1120403456` in display mode `2`. -/
def sampleView : LiveView :=
  { windowStyle := 13, frameRect := ⟨30, 40, 800, 600⟩,
    zoomVirtual := 1120403456, displayMode := 2 }

/-- The dragging window in its surroundings, with no request issued yet. -/
def sampleSession : Session :=
  { win := draggingWindow, view := sampleView, calls := [] }

/-- A window showing a CHM document: a controller that is not a fixed-page
controller. -/
def chmWindow : WindowInfo :=
  { blankWindow with
    loadedFilePath := some "a.chm"
    ctrl := some ⟨none, some ⟨1⟩, none⟩ }

/-- The sample session after presentation was switched on. -/
def presentingSession : Session :=
  { win := { draggingWindow with presentation := PresentationMode.PM_ENABLED },
    view := sampleView, calls := [] }

/-- The four snapshot members of a window, read as a view configuration:
`nonFullScreenWindowStyle`, `nonFullScreenFrameRect`, `prevZoomVirtual`,
`prevDisplayMode`. -/
def snapshotOf (w : WindowInfo) : LiveView :=
  { windowStyle := w.nonFullScreenWindowStyle
    frameRect := w.nonFullScreenFrameRect
    zoomVirtual := w.prevZoomVirtual
    displayMode := w.prevDisplayMode }

/-- The session after `ChangePresentationMode(PM_ENABLED)`. -/
def afterEnter (s : Session) : Session :=
  ChangePresentationMode PresentationMode.PM_ENABLED s

/-- The session after `ChangePresentationMode(PM_ENABLED)` and then
`ChangePresentationMode(PM_BLACK_SCREEN)`. -/
def afterSwitch (s : Session) : Session :=
  ChangePresentationMode PresentationMode.PM_BLACK_SCREEN (afterEnter s)

/-- The session after `ChangePresentationMode(PM_ENABLED)`,
`ChangePresentationMode(PM_BLACK_SCREEN)` and then
`ChangePresentationMode(PM_DISABLED)`. -/
def afterExit (s : Session) : Session :=
  ChangePresentationMode PresentationMode.PM_DISABLED (afterSwitch s)

/-! ## Shared lemmas on `ChangePresentationMode` -/

/-- The data members after `ChangePresentationMode`: the old ones with
`presentation` replaced. -/
theorem ChangePresentationMode_win (mode : PresentationMode) (s : Session) :
    (ChangePresentationMode mode s).win = { s.win with presentation := mode } :=
  rfl

/-- The member `presentation` after `ChangePresentationMode`. -/
theorem ChangePresentationMode_presentation (mode : PresentationMode) (s : Session) :
    (ChangePresentationMode mode s).win.presentation = mode :=
  rfl

/-- The live view is out of reach of `ChangePresentationMode`. -/
theorem ChangePresentationMode_view (mode : PresentationMode) (s : Session) :
    (ChangePresentationMode mode s).view = s.view :=
  rfl

/-- The requests after `ChangePresentationMode`: one more `RedrawAll(false)`,
seeing the new `presentation`. -/
theorem ChangePresentationMode_calls (mode : PresentationMode) (s : Session) :
    (ChangePresentationMode mode s).calls
      = s.calls ++ [Call.RedrawAll false { s.win with presentation := mode }] :=
  rfl

/-- A run of calls followed by one more call. -/
theorem ChangePresentationModes_snoc (modes : List PresentationMode)
    (mode : PresentationMode) (s : Session) :
    ChangePresentationModes (modes ++ [mode]) s
      = ChangePresentationMode mode (ChangePresentationModes modes s) := by
  simp [ChangePresentationModes, List.foldl_append]

/-- A run of calls changes no data member other than `presentation`. -/
theorem ChangePresentationModes_win (modes : List PresentationMode) (s : Session) :
    (ChangePresentationModes modes s).win
      = { s.win with presentation := (ChangePresentationModes modes s).win.presentation } := by
  induction modes generalizing s with
  | nil => rfl
  | cons m ms ih => exact ih (ChangePresentationMode m s)

/-- The snapshot members are out of reach of `ChangePresentationMode`. -/
theorem snapshotOf_ChangePresentationMode (mode : PresentationMode) (s : Session) :
    snapshotOf (ChangePresentationMode mode s).win = snapshotOf s.win := by
  unfold snapshotOf
  rfl

/-- A run of calls leaves the live view alone. -/
theorem ChangePresentationModes_view (modes : List PresentationMode) (s : Session) :
    (ChangePresentationModes modes s).view = s.view := by
  induction modes generalizing s with
  | nil => rfl
  | cons m ms ih =>
    have e : ChangePresentationModes (m :: ms) s
        = ChangePresentationModes ms (ChangePresentationMode m s) := rfl
    rw [e, ih]
    rfl

/-! ## Presentation mode (claims C1 to C6) -/

/-- Claim C1, as stated, fails on the sample session.  Presentation is
disabled, the live window style is 13 and the stored `nonFullScreenWindowStyle`
is 0; after `ChangePresentationMode(PM_ENABLED)` the stored style is still 0,
so no snapshot of the live view was captured by the first entry. -/
theorem C1_snapshot_not_captured :
    sampleSession.win.presentation = PresentationMode.PM_DISABLED ∧
    sampleSession.view.windowStyle = 13 ∧
    (afterEnter sampleSession).win.nonFullScreenWindowStyle = 0 ∧
    ¬ ((afterExit sampleSession).win.presentation = PresentationMode.PM_DISABLED ∧
       (afterExit sampleSession).view = sampleSession.view ∧
       snapshotOf (afterEnter sampleSession).win = sampleSession.view ∧
       snapshotOf (afterSwitch sampleSession).win = snapshotOf (afterEnter sampleSession).win) := by
  refine ⟨rfl, rfl, rfl, ?_⟩
  intro h
  exact absurd h.2.2.1 (by decide)

/-- Claim C1, amended.  From a window whose presentation is disabled, the
calls `ChangePresentationMode(PM_ENABLED)`, `ChangePresentationMode(PM_BLACK_SCREEN)`,
`ChangePresentationMode(PM_DISABLED)` end with presentation disabled; the live
window style, frame rectangle, zoom and display mode are the same after each
call as before the first, because no call touches them; and the four snapshot
members hold after each call what they held before the first, because no call
writes them.  At the end every data member is back at its starting value. -/
theorem C1_round_trip_without_snapshot (s : Session)
    (h : s.win.presentation = PresentationMode.PM_DISABLED) :
    (afterExit s).win.presentation = PresentationMode.PM_DISABLED ∧
    (afterEnter s).view = s.view ∧
    (afterSwitch s).view = s.view ∧
    (afterExit s).view = s.view ∧
    snapshotOf (afterEnter s).win = snapshotOf s.win ∧
    snapshotOf (afterSwitch s).win = snapshotOf s.win ∧
    snapshotOf (afterExit s).win = snapshotOf s.win ∧
    (afterExit s).win = s.win := by
  have e : (afterExit s).win = s.win := by
    unfold afterExit afterSwitch afterEnter
    rw [ChangePresentationMode_win, ChangePresentationMode_win, ChangePresentationMode_win]
    show { s.win with presentation := PresentationMode.PM_DISABLED } = s.win
    rw [← h]
  refine ⟨?_, ?_, ?_, ?_, ?_, ?_, ?_, e⟩
  · exact ChangePresentationMode_presentation _ _
  · exact ChangePresentationMode_view _ s
  · unfold afterSwitch afterEnter
    rw [ChangePresentationMode_view, ChangePresentationMode_view]
  · unfold afterExit afterSwitch afterEnter
    rw [ChangePresentationMode_view, ChangePresentationMode_view, ChangePresentationMode_view]
  · exact snapshotOf_ChangePresentationMode _ s
  · unfold afterSwitch afterEnter
    rw [snapshotOf_ChangePresentationMode, snapshotOf_ChangePresentationMode]
  · rw [e]

/-- Claim C1, amended, on the sample session. -/
theorem C1_round_trip_without_snapshot_witness :
    sampleSession.win.presentation = PresentationMode.PM_DISABLED ∧
    (afterExit sampleSession).view = sampleView ∧
    snapshotOf (afterEnter sampleSession).win = snapshotOf draggingWindow ∧
    (afterExit sampleSession).win = draggingWindow :=
  ⟨rfl,
   (C1_round_trip_without_snapshot sampleSession rfl).2.2.2.1,
   (C1_round_trip_without_snapshot sampleSession rfl).2.2.2.2.1,
   (C1_round_trip_without_snapshot sampleSession rfl).2.2.2.2.2.2.2⟩

/-- Claim C2.  In a window whose presentation is not disabled, for each of
the modes `PM_ENABLED`, `PM_BLACK_SCREEN`, `PM_WHITE_SCREEN`,
`ChangePresentationMode(mode)` changes only the `presentation` member:
`tocBeforeFullScreen`, `windowStateBeforePresentation`,
`nonFullScreenWindowStyle`, `nonFullScreenFrameRect`, `prevZoomVirtual`,
`prevDisplayMode` and every other data member keep their values, the live view
is untouched, and the window is in a presentation mode before and after. -/
theorem C2_mode_switch_keeps_snapshot (s : Session) (mode : PresentationMode)
    (hcur : s.win.presentation ≠ PresentationMode.PM_DISABLED)
    (hmode : mode ∈ [PresentationMode.PM_ENABLED, PresentationMode.PM_BLACK_SCREEN,
                     PresentationMode.PM_WHITE_SCREEN]) :
    (ChangePresentationMode mode s).win = { s.win with presentation := mode } ∧
    (ChangePresentationMode mode s).win.tocBeforeFullScreen = s.win.tocBeforeFullScreen ∧
    (ChangePresentationMode mode s).win.windowStateBeforePresentation
      = s.win.windowStateBeforePresentation ∧
    (ChangePresentationMode mode s).win.nonFullScreenWindowStyle
      = s.win.nonFullScreenWindowStyle ∧
    (ChangePresentationMode mode s).win.nonFullScreenFrameRect
      = s.win.nonFullScreenFrameRect ∧
    (ChangePresentationMode mode s).win.prevZoomVirtual = s.win.prevZoomVirtual ∧
    (ChangePresentationMode mode s).win.prevDisplayMode = s.win.prevDisplayMode ∧
    (ChangePresentationMode mode s).view = s.view ∧
    (s.win.presentation ≠ PresentationMode.PM_DISABLED ∧
      (ChangePresentationMode mode s).win.presentation ≠ PresentationMode.PM_DISABLED) := by
  refine ⟨rfl, rfl, rfl, rfl, rfl, rfl, rfl, rfl, hcur, ?_⟩
  rw [ChangePresentationMode_presentation]
  intro hd
  subst hd
  simp at hmode

/-- Claim C2 on the presenting sample session, switched to the black screen. -/
theorem C2_mode_switch_keeps_snapshot_witness :
    presentingSession.win.presentation ≠ PresentationMode.PM_DISABLED ∧
    (ChangePresentationMode PresentationMode.PM_BLACK_SCREEN presentingSession).win
      = { draggingWindow with presentation := PresentationMode.PM_BLACK_SCREEN } :=
  ⟨by decide,
   (C2_mode_switch_keeps_snapshot presentingSession PresentationMode.PM_BLACK_SCREEN
      (by decide) (by decide)).1⟩

/-- Claim C3, as stated, fails on the sample session: presentation is
disabled and a drag is going on; after `ChangePresentationMode(PM_ENABLED)`
the mouse action is still `MA_DRAGGING`, not `MA_IDLE`. -/
theorem C3_entry_does_not_force_idle :
    sampleSession.win.presentation = PresentationMode.PM_DISABLED ∧
    PresentationMode.PM_ENABLED ≠ PresentationMode.PM_DISABLED ∧
    (ChangePresentationMode PresentationMode.PM_ENABLED sampleSession).win.mouseAction
      = MouseAction.MA_DRAGGING ∧
    ¬ ((ChangePresentationMode PresentationMode.PM_ENABLED sampleSession).win.mouseAction
          = MouseAction.MA_IDLE ∧
       (ChangePresentationMode PresentationMode.PM_ENABLED sampleSession).win.presentation
          = PresentationMode.PM_ENABLED) := by
  refine ⟨rfl, by decide, rfl, ?_⟩
  intro h
  exact absurd h.1 (by decide)

/-- Claim C3, amended.  From a window whose presentation is disabled, for
every mode other than `PM_DISABLED`, after `ChangePresentationMode(mode)` the
presentation is `mode` and `mouseAction` has the value it had before the call;
it is `MA_IDLE` afterwards exactly when it was `MA_IDLE` before. -/
theorem C3_entry_keeps_mouseAction (s : Session) (mode : PresentationMode)
    (hcur : s.win.presentation = PresentationMode.PM_DISABLED)
    (hmode : mode ≠ PresentationMode.PM_DISABLED) :
    (ChangePresentationMode mode s).win.presentation = mode ∧
    (ChangePresentationMode mode s).win.presentation ≠ s.win.presentation ∧
    (ChangePresentationMode mode s).win.mouseAction = s.win.mouseAction ∧
    ((ChangePresentationMode mode s).win.mouseAction = MouseAction.MA_IDLE
      ↔ s.win.mouseAction = MouseAction.MA_IDLE) := by
  refine ⟨rfl, ?_, rfl, Iff.rfl⟩
  rw [hcur]
  exact hmode

/-- Claim C3, amended, on the sample session entering the white screen. -/
theorem C3_entry_keeps_mouseAction_witness :
    sampleSession.win.presentation = PresentationMode.PM_DISABLED ∧
    (ChangePresentationMode PresentationMode.PM_WHITE_SCREEN sampleSession).win.presentation
      = PresentationMode.PM_WHITE_SCREEN ∧
    (ChangePresentationMode PresentationMode.PM_WHITE_SCREEN sampleSession).win.mouseAction
      = MouseAction.MA_DRAGGING :=
  ⟨rfl,
   (C3_entry_keeps_mouseAction sampleSession PresentationMode.PM_WHITE_SCREEN rfl
      (by decide)).1,
   (C3_entry_keeps_mouseAction sampleSession PresentationMode.PM_WHITE_SCREEN rfl
      (by decide)).2.2.1⟩

/-- Claim C4.  For every window and every mode, the current one included,
`ChangePresentationMode(mode)` adds exactly one request to those issued so
far: a `RedrawAll` with `update = false`, whose callee sees the data members as
they are at the end of the call, with `presentation` already equal to `mode`. -/
theorem C4_one_redraw_after_assignment (s : Session) (mode : PresentationMode) :
    (ChangePresentationMode mode s).calls
      = s.calls ++ [Call.RedrawAll false (ChangePresentationMode mode s).win] ∧
    (ChangePresentationMode mode s).win.presentation = mode ∧
    (ChangePresentationMode mode s).calls.length = s.calls.length + 1 ∧
    (ChangePresentationMode s.win.presentation s).calls
      = s.calls ++ [Call.RedrawAll false s.win] := by
  refine ⟨rfl, rfl, ?_, rfl⟩
  simp [ChangePresentationMode_calls]

/-- Claim C5, as stated, fails on the sample session: presentation is
disabled, yet `ChangePresentationMode(PM_DISABLED)` has an effect, one more
`RedrawAll` request, so the session afterwards is not the session before. -/
theorem C5_exit_while_disabled_redraws :
    sampleSession.win.presentation = PresentationMode.PM_DISABLED ∧
    sampleSession.calls = [] ∧
    (ChangePresentationMode PresentationMode.PM_DISABLED sampleSession).calls
      = [Call.RedrawAll false draggingWindow] ∧
    ChangePresentationMode PresentationMode.PM_DISABLED sampleSession ≠ sampleSession := by
  refine ⟨rfl, rfl, rfl, ?_⟩
  intro h
  have hlen := congrArg (fun t : Session => t.calls.length) h
  exact absurd hlen (by decide)

/-- Claim C5, amended.  In a window whose presentation is disabled,
`ChangePresentationMode(PM_DISABLED)` leaves every data member and the live
view unchanged; it returns nothing, so no error is reported; and its one
effect is a `RedrawAll` request with `update = false`. -/
theorem C5_exit_while_disabled (s : Session)
    (h : s.win.presentation = PresentationMode.PM_DISABLED) :
    (ChangePresentationMode PresentationMode.PM_DISABLED s).win = s.win ∧
    (ChangePresentationMode PresentationMode.PM_DISABLED s).view = s.view ∧
    (ChangePresentationMode PresentationMode.PM_DISABLED s).calls
      = s.calls ++ [Call.RedrawAll false s.win] := by
  have e : (ChangePresentationMode PresentationMode.PM_DISABLED s).win = s.win := by
    rw [ChangePresentationMode_win, ← h]
  refine ⟨e, rfl, ?_⟩
  rw [ChangePresentationMode_calls, ← ChangePresentationMode_win, e]

/-- Claim C5, amended, on the sample session. -/
theorem C5_exit_while_disabled_witness :
    sampleSession.win.presentation = PresentationMode.PM_DISABLED ∧
    (ChangePresentationMode PresentationMode.PM_DISABLED sampleSession).win = draggingWindow ∧
    (ChangePresentationMode PresentationMode.PM_DISABLED sampleSession).calls
      = [] ++ [Call.RedrawAll false draggingWindow] :=
  ⟨rfl,
   (C5_exit_while_disabled sampleSession rfl).1,
   (C5_exit_while_disabled sampleSession rfl).2.2⟩

/-- Claim C6.  Whatever the current presentation, after
`ChangePresentationMode(mode)` the `presentation` member equals `mode`, for
each of the four modes.  Hence a second call with the same mode leaves the
data members and the live view as the first call left them, and after any run
of calls the data members and the live view are those of a single call with
the last mode of the run; two runs with the same last mode agree. -/
theorem C6_presentation_is_requested_mode (s : Session) (mode : PresentationMode)
    (modes modes2 : List PresentationMode) :
    (ChangePresentationMode mode s).win.presentation = mode ∧
    mode ∈ [PresentationMode.PM_DISABLED, PresentationMode.PM_ENABLED,
            PresentationMode.PM_BLACK_SCREEN, PresentationMode.PM_WHITE_SCREEN] ∧
    (ChangePresentationMode mode (ChangePresentationMode mode s)).win
      = (ChangePresentationMode mode s).win ∧
    (ChangePresentationMode mode (ChangePresentationMode mode s)).view
      = (ChangePresentationMode mode s).view ∧
    (ChangePresentationModes (modes ++ [mode]) s).win
      = (ChangePresentationMode mode s).win ∧
    (ChangePresentationModes (modes ++ [mode]) s).view
      = (ChangePresentationMode mode s).view ∧
    (ChangePresentationModes (modes ++ [mode]) s).win
      = (ChangePresentationModes (modes2 ++ [mode]) s).win := by
  have key : ∀ ms : List PresentationMode,
      (ChangePresentationModes (ms ++ [mode]) s).win
        = (ChangePresentationMode mode s).win := by
    intro ms
    rw [ChangePresentationModes_snoc, ChangePresentationMode_win,
      ChangePresentationModes_win ms s, ChangePresentationMode_win]
  refine ⟨rfl, ?_, rfl, rfl, key modes, ?_, ?_⟩
  · cases mode <;> simp
  · rw [ChangePresentationModes_snoc, ChangePresentationMode_view,
      ChangePresentationModes_view, ChangePresentationMode_view]
  · rw [key modes, key modes2]

/-! ## The interaction state machine (claim C7) -/

/-- Claim C7.  After any sequence of `Begin`/`End` calls from any window, the
`mouseAction` member is one of the six enumerators `MA_IDLE`, `MA_DRAGGING`,
`MA_DRAGGING_RIGHT`, `MA_SELECTING`, `MA_SCROLLING`, `MA_SELECTING_TEXT`, and
exactly one of them; the six are encoded 0 to 5 in this order with
`MA_IDLE = 0`, and enumerators with the same code are the same; and `Begin`
called in a window whose `mouseAction` is not `MA_IDLE` reports
`AlreadyActive` and leaves the window as it was. -/
theorem C7_mode_exclusivity (ops : List InteractionOp) (w : WindowInfo)
    (mode : MouseAction) (originPosition : PointI) :
    (runInteraction ops w).mouseAction ∈ MouseAction.all ∧
    MouseAction.all.count (runInteraction ops w).mouseAction = 1 ∧
    (runInteraction ops w).mouseAction.toNat ≤ 5 ∧
    MouseAction.all.map MouseAction.toNat = [0, 1, 2, 3, 4, 5] ∧
    MouseAction.MA_IDLE.toNat = 0 ∧
    (∀ a b : MouseAction, a.toNat = b.toNat → a = b) ∧
    (w.mouseAction ≠ MouseAction.MA_IDLE →
      (Begin mode originPosition w).error = some ErrorKind.AlreadyActive ∧
      (Begin mode originPosition w).win = w) := by
  refine ⟨?_, ?_, ?_, rfl, rfl, ?_, ?_⟩
  · generalize (runInteraction ops w).mouseAction = a
    cases a <;> decide
  · generalize (runInteraction ops w).mouseAction = a
    cases a <;> decide
  · generalize (runInteraction ops w).mouseAction = a
    cases a <;> decide
  · intro a b
    cases a <;> cases b <;> decide
  · intro h
    unfold Begin
    rw [if_neg h]
    exact ⟨rfl, rfl⟩

/-- Claim C7 on the dragging window: a second `Begin` fails and changes
nothing, also after an `End` and a fresh `Begin` have gone before. -/
theorem C7_mode_exclusivity_witness :
    draggingWindow.mouseAction ≠ MouseAction.MA_IDLE ∧
    (runInteraction [InteractionOp.callEnd,
        InteractionOp.callBegin MouseAction.MA_SELECTING ⟨1, 2⟩,
        InteractionOp.callBegin MouseAction.MA_SCROLLING ⟨3, 4⟩] draggingWindow).mouseAction
      ∈ MouseAction.all ∧
    (Begin MouseAction.MA_SCROLLING ⟨3, 4⟩ draggingWindow).error
      = some ErrorKind.AlreadyActive ∧
    (Begin MouseAction.MA_SCROLLING ⟨3, 4⟩ draggingWindow).win = draggingWindow :=
  ⟨by decide,
   (C7_mode_exclusivity _ draggingWindow MouseAction.MA_SCROLLING ⟨3, 4⟩).1,
   ((C7_mode_exclusivity [] draggingWindow MouseAction.MA_SCROLLING ⟨3, 4⟩).2.2.2.2.2.2
      (by decide)).1,
   ((C7_mode_exclusivity [] draggingWindow MouseAction.MA_SCROLLING ⟨3, 4⟩).2.2.2.2.2.2
      (by decide)).2⟩

/-! ## Document kinds (claims C9 and C10) -/

/-- Claim C9.  `IsNotPdf()` is true exactly when `ctrl` is not `NULL` and
`GetEngineType()` is not `Engine_PDF`, where `GetEngineType()` is the
`engineType` of the fixed-page controller when `AsFixed()` is not `NULL` and
`Engine_None` otherwise.  So it is false for every window with no document
loaded, and, `Engine_None` and `Engine_PDF` being different enumerators, true
for every loaded document whose controller is not a fixed-page controller. -/
theorem C9_IsNotPdf (Engine_None Engine_PDF : EngineType) (w : WindowInfo) :
    (IsNotPdf Engine_None Engine_PDF w = true
      ↔ w.ctrl ≠ none ∧ GetEngineType Engine_None w ≠ Engine_PDF) ∧
    (∀ f, AsFixed w = some f → GetEngineType Engine_None w = f.engineType) ∧
    (AsFixed w = none → GetEngineType Engine_None w = Engine_None) ∧
    (IsDocLoaded w = false → IsNotPdf Engine_None Engine_PDF w = false) ∧
    (Engine_None ≠ Engine_PDF → IsDocLoaded w = true → AsFixed w = none →
      IsNotPdf Engine_None Engine_PDF w = true) := by
  cases hw : w.ctrl with
  | none =>
    simp [IsNotPdf, IsDocLoaded, GetEngineType, AsFixed, hw]
  | some c =>
    cases hf : c.AsFixed with
    | none =>
      simp [IsNotPdf, IsDocLoaded, GetEngineType, AsFixed, hw, hf]
    | some f =>
      simp [IsNotPdf, IsDocLoaded, GetEngineType, AsFixed, hw, hf]

/-- Claim C9 on the CHM window and on the blank window, with `Engine_None = 0`
and `Engine_PDF = 5`. -/
theorem C9_IsNotPdf_witness :
    IsNotPdf 0 5 chmWindow = true ∧ IsNotPdf 0 5 blankWindow = false :=
  ⟨(C9_IsNotPdf 0 5 chmWindow).2.2.2.2 (by decide) (by decide) (by decide),
   (C9_IsNotPdf 0 5 blankWindow).2.2.2.1 (by decide)⟩

/-- Claim C10.  `IsFixedDocLoaded()` holds iff `AsFixed()` is not `NULL`,
`IsChm()` iff `AsChm()` is not `NULL`, `IsEbookLoaded()` iff `AsEbook()` is not
`NULL`; each of the three implies `IsDocLoaded()`; and when `ctrl` is `NULL`
the three predicates are false, the three accessors return `NULL` with no
controller consulted, and `GetEngineType()` is `Engine_None`. -/
theorem C10_kind_predicates (Engine_None : EngineType) (w : WindowInfo) :
    (IsFixedDocLoaded w = true ↔ AsFixed w ≠ none) ∧
    (IsChm w = true ↔ AsChm w ≠ none) ∧
    (IsEbookLoaded w = true ↔ AsEbook w ≠ none) ∧
    (IsFixedDocLoaded w = true → IsDocLoaded w = true) ∧
    (IsChm w = true → IsDocLoaded w = true) ∧
    (IsEbookLoaded w = true → IsDocLoaded w = true) ∧
    (w.ctrl = none →
      IsFixedDocLoaded w = false ∧ IsChm w = false ∧ IsEbookLoaded w = false ∧
      AsFixed w = none ∧ AsChm w = none ∧ AsEbook w = none ∧
      GetEngineType Engine_None w = Engine_None) := by
  cases hw : w.ctrl with
  | none =>
    simp [IsFixedDocLoaded, IsChm, IsEbookLoaded, IsDocLoaded, AsFixed, AsChm, AsEbook,
      GetEngineType, hw]
  | some c =>
    simp [IsFixedDocLoaded, IsChm, IsEbookLoaded, IsDocLoaded, AsFixed, AsChm, AsEbook,
      hw, Option.isSome_iff_ne_none]

/-- Claim C10 on the dragging window, which shows a fixed-page document, and
on the blank window, whose `ctrl` is `NULL`. -/
theorem C10_kind_predicates_witness :
    IsDocLoaded draggingWindow = true ∧
    (IsFixedDocLoaded blankWindow = false ∧ IsChm blankWindow = false ∧
      IsEbookLoaded blankWindow = false ∧ AsFixed blankWindow = none ∧
      AsChm blankWindow = none ∧ AsEbook blankWindow = none ∧
      GetEngineType 0 blankWindow = 0) :=
  ⟨(C10_kind_predicates 0 draggingWindow).2.2.2.1 (by decide),
   (C10_kind_predicates 0 blankWindow).2.2.2.2.2.2 (by decide)⟩

/-! ## Named destinations (claim C8) -/

mutual
/-- The traversal stops at the first matching entry of the depth-first
order. -/
theorem FindTocEntry_eq_find (lower : Char → Char) (item : TocNode) (name : String)
    (partially : Bool) :
    FindTocEntry lower item name partially
      = item.preorder.find? (fun n => MatchTocName lower partially n.name name) := by
  match item with
  | .mk title dest children =>
    rw [FindTocEntry, TocNode.preorder, List.find?_cons]
    cases hm : MatchTocName lower partially title name with
    | true => simp [TocNode.name, hm]
    | false =>
      simp only [TocNode.name, hm, Bool.false_eq_true, if_false]
      exact FindTocEntryIn_eq_find lower children name partially
/-- The traversal of a run of siblings stops at the first matching entry of
their depth-first order. -/
theorem FindTocEntryIn_eq_find (lower : Char → Char) (items : List TocNode) (name : String)
    (partially : Bool) :
    FindTocEntryIn lower items name partially
      = (preorderIn items).find? (fun n => MatchTocName lower partially n.name name) := by
  match items with
  | [] => rfl
  | item :: rest =>
    rw [FindTocEntryIn, preorderIn, List.find?_append, FindTocEntry_eq_find lower item,
      FindTocEntryIn_eq_find lower rest]
    cases item.preorder.find? (fun n => MatchTocName lower partially n.name name) <;> rfl
end

end WindowInfoModel
